import Mathlib

/-!
# Verification of the snake-game score service

Shallow embedding of the score persistence and aggregation service
(`backend/app`): the `Score` row type (`models.py`), the request/response
schemas (`schemas.py`), and the three endpoints `create_score`,
`get_leaderboard`, `get_stats` (`routers/scores.py`).

Modelling choices, each tied to the source:
* The SQLite table `scores` is a list of rows in insertion (rowid) order,
  together with the next auto-increment id and a clock supplying
  `created_at` (`datetime.utcnow`).
* `ORDER BY score DESC` (SQLAlchemy `.order_by(Score.score.desc())`) is
  modelled as a stable descending sort on the insertion sequence: SQLite
  performs a full table scan in rowid order and its merge sorter keeps
  the scan order among equal keys, so ties come out in insertion order.
* `.limit(n)` follows SQLite's documented `LIMIT` semantics: a negative
  value means "no limit", a non-negative value keeps the first `n` rows.
* Pydantic validation of `ScoreCreate` (`schemas.py`) applies field
  defaults for omitted fields and collects every violated constraint
  (`ge=0` on `score`, `ge=1` on `snake_length`, `ge=0` on
  `duration_seconds`, `max_length=100` on `player_name`).
* SQLite's `AVG` over an integer column keeps the sum exact and returns
  the IEEE binary64 quotient of sum by count; Python's built-in
  `round(x, 1)` performs correctly rounded decimal rounding of the
  double's exact binary value, ties to even.  `fl53` reproduces binary64
  round-to-nearest-even exactly in rational arithmetic (normal range; no
  overflow or subnormals, unreachable for score data), so the embedded
  average follows the program's float pipeline value for value — e.g.
  a mean of 7/20 yields 0.3 here as in the program, because the double
  nearest 0.35 lies below the true half.
* A possible storage fault at `db.commit()` is an oracle parameter:
  `some msg` means the commit raises an exception whose `str` is `msg`,
  `none` means the commit succeeds.
-/

/-- A row of the `scores` table (`models.py`, class `Score`).
`created_at` is an abstract clock value (the code stores
`datetime.utcnow`). -/
structure Score where
  id : Nat
  player_name : String
  score : Int
  snake_length : Int
  duration_seconds : Int
  created_at : Nat
deriving DecidableEq, Repr

/-- The persistent state: the `scores` table in insertion (rowid) order,
the next auto-increment primary key, and the server clock that stamps
`created_at`. -/
structure DB where
  rows : List Score
  next_id : Nat
  now : Nat
deriving DecidableEq, Repr

/-- The JSON body of `POST /api/scores` before Pydantic parsing: `score`
is required, the other three fields of `ScoreCreate` are optional
(`schemas.py`). -/
structure ScoreCreateInput where
  score : Int
  snake_length : Option Int
  duration_seconds : Option Int
  player_name : Option String
deriving DecidableEq, Repr

/-- The parsed `ScoreCreate` model: every field populated, defaults
applied (`snake_length=3`, `duration_seconds=0`, `player_name="Player"`,
from `schemas.py`).  An explicit JSON `null` for `player_name` also ends
up as `"Player"`: Pydantic passes `None` through and the SQLAlchemy
column default (`models.py`) fills it in at insert. -/
structure ScoreCreate where
  score : Int
  snake_length : Int
  duration_seconds : Int
  player_name : String
deriving DecidableEq, Repr

/-- Field defaults of `ScoreCreate` (`schemas.py`). -/
def applyDefaults (i : ScoreCreateInput) : ScoreCreate :=
  { score := i.score
    snake_length := i.snake_length.getD 3
    duration_seconds := i.duration_seconds.getD 0
    player_name := i.player_name.getD "Player" }

/-- The constraints Pydantic checks on `ScoreCreate` (`schemas.py`):
`score ≥ 0`, `snake_length ≥ 1`, `duration_seconds ≥ 0`,
`len(player_name) ≤ 100`.  Pydantic reports every violated field, so the
result is the list of offending field names (empty = valid). -/
def violations (c : ScoreCreate) : List String :=
  (if c.score < 0 then ["score"] else []) ++
  (if c.snake_length < 1 then ["snake_length"] else []) ++
  (if c.duration_seconds < 0 then ["duration_seconds"] else []) ++
  (if 100 < c.player_name.length then ["player_name"] else [])

/-- `ScoreResponse` (`schemas.py`): the stored row echoed back with the
store-generated `id` and `created_at`. -/
structure ScoreResponse where
  id : Nat
  player_name : String
  score : Int
  snake_length : Int
  duration_seconds : Int
  created_at : Nat
deriving DecidableEq, Repr

/-- `LeaderboardEntry` (`schemas.py`). -/
structure LeaderboardEntry where
  rank : Nat
  player_name : String
  score : Int
  created_at : Nat
deriving DecidableEq, Repr

/-- `LeaderboardResponse` (`schemas.py`). -/
structure LeaderboardResponse where
  entries : List LeaderboardEntry
deriving DecidableEq, Repr

/-- `StatsResponse` (`schemas.py`).  `average_score` is a `float` in the
code; we carry the exact rational value. -/
structure StatsResponse where
  total_games : Nat
  best_score : Int
  average_score : ℚ
  total_play_time_seconds : Int
  longest_snake : Int
deriving DecidableEq, Repr

/-- Errors visible to the caller: a 422 validation error listing the
offending fields (FastAPI/Pydantic), or an `HTTPException` with status
and detail (`routers/scores.py`). -/
inductive ApiError where
  | validation (fields : List String)
  | http (status : Nat) (detail : String)
deriving DecidableEq, Repr

/-- The row the handler builds — `Score(**score_data.model_dump())` —
with the `id` and `created_at` the store assigns at commit. -/
def newRow (input : ScoreCreateInput) (db : DB) : Score :=
  { id := db.next_id
    player_name := (applyDefaults input).player_name
    score := (applyDefaults input).score
    snake_length := (applyDefaults input).snake_length
    duration_seconds := (applyDefaults input).duration_seconds
    created_at := db.now }

/-- `ScoreResponse.from_attributes`: the stored row echoed field by
field. -/
def rowResponse (r : Score) : ScoreResponse :=
  { id := r.id, player_name := r.player_name, score := r.score
    snake_length := r.snake_length, duration_seconds := r.duration_seconds
    created_at := r.created_at }

/-- `POST /api/scores` (`create_score` in `routers/scores.py`).
FastAPI validates the body against `ScoreCreate` before the handler
runs; an invalid body is rejected without touching the database.  The
handler builds a `Score` row, `db.add` + `db.commit`s it, and returns it
refreshed with `id` and `created_at`.  If the commit raises (`fault =
some msg`), the handler rolls back — the table is unchanged — and
re-raises as `HTTPException(500, "Не удалось сохранить результат: " +
str(e))`. -/
def create_score (fault : Option String) (input : ScoreCreateInput) (db : DB) :
    Except ApiError ScoreResponse × DB :=
  if violations (applyDefaults input) = [] then
    match fault with
    | some msg =>
        (Except.error (ApiError.http 500 ("Не удалось сохранить результат: " ++ msg)), db)
    | none =>
        (Except.ok (rowResponse (newRow input db)),
         { rows := db.rows ++ [newRow input db], next_id := db.next_id + 1, now := db.now + 1 })
  else
    (Except.error (ApiError.validation (violations (applyDefaults input))), db)

/-- One step of the stable descending sort: place `a` after every
already-sorted element with a strictly larger score and before the rest,
so earlier-inserted rows stay ahead of later ones on equal scores. -/
def insertDesc (a : Score) : List Score → List Score
  | [] => [a]
  | b :: l => if a.score < b.score then b :: insertDesc a l else a :: b :: l

/-- `SELECT * FROM scores ORDER BY score DESC` (`get_leaderboard`):
a stable sort of the insertion-ordered table by score descending. -/
def topByScore (rows : List Score) : List Score :=
  rows.foldr insertDesc []

/-- SQLite `LIMIT` semantics for `.limit(limit)`: a negative limit means
no upper bound (all rows), otherwise keep the first `limit` rows. -/
def sqliteLimit (limit : Int) (l : List Score) : List Score :=
  if limit < 0 then l else l.take limit.toNat

/-- The `enumerate(scores)` comprehension of `get_leaderboard`: entry
`index` gets `rank = index + 1`; `i` is the current index. -/
def rankEntries (i : Nat) : List Score → List LeaderboardEntry
  | [] => []
  | s :: l =>
      { rank := i + 1, player_name := s.player_name, score := s.score
        created_at := s.created_at } :: rankEntries (i + 1) l

/-- `GET /api/leaderboard` (`get_leaderboard` in `routers/scores.py`):
query `ORDER BY score DESC LIMIT limit`, then rank positionally.  The
handler only reads, so the state comes back unchanged. -/
def get_leaderboard (limit : Int) (db : DB) : LeaderboardResponse × DB :=
  ({ entries := rankEntries 0 (sqliteLimit limit (topByScore db.rows)) }, db)

/-- `SELECT max(c) FROM scores`: `None` on an empty table. -/
def sqlMax : List Int → Option Int
  | [] => none
  | a :: l =>
      match sqlMax l with
      | none => some a
      | some m => some (max a m)

/-- Round `num / den` (with `den ≠ 0` understood) to the nearest
integer, ties to even — the rounding Python's `round` applies to the
kept digit.  `rem2` is twice the remainder of the floor division, so
comparing it with `den` decides below/above/at the half point. -/
def roundHalfEvenInt (num : Int) (den : Nat) : Int :=
  let f := Int.fdiv num den
  let rem2 := 2 * (num - f * den)
  if rem2 < den then f
  else if (den : Int) < rem2 then f + 1
  else if f % 2 = 0 then f else f + 1

/-- Bit length of `n` (`fuel`-structured so the kernel can evaluate it;
call with `fuel = n`): the unique `b` with `2 ^ (b - 1) ≤ n < 2 ^ b` for
`n > 0`, and `0` for `n = 0`. -/
def bitlen (fuel : Nat) (n : Nat) : Nat :=
  match fuel with
  | 0 => 0
  | fuel + 1 => if n = 0 then 0 else bitlen fuel (n / 2) + 1

/-- Whether `num / den ≥ 2 ^ k`, with `k` a possibly negative
exponent (integer comparison after clearing denominators). -/
def geTwoPow (num den : Nat) (k : Int) : Bool :=
  if 0 ≤ k then decide (den * 2 ^ k.toNat ≤ num) else decide (den ≤ num * 2 ^ (-k).toNat)

/-- Round the exact rational `q` to the nearest IEEE-754 binary64
value (round to nearest, ties to even), returned as the exact rational
it denotes.  The exponent `e` is chosen from the bit lengths of
numerator and denominator (corrected by one threshold test) so that
`|q| / 2 ^ e ∈ [2 ^ 52, 2 ^ 53)`; rounding that scaled value to an
integer ties-to-even is exactly rounding to a 53-bit significand.  The
model covers the binary64 normal range and ignores overflow and
subnormals, which no realistic score data can reach. -/
def fl53 (q : ℚ) : ℚ :=
  if q.num = 0 then 0 else
  let num := q.num.natAbs
  let den := q.den
  let d0 : Int := (bitlen num num : Int) - (bitlen den den : Int)
  let e : Int := if geTwoPow num den d0 then d0 - 52 else d0 - 53
  let m : Int := roundHalfEvenInt (Int.ofNat (num * 2 ^ (-e).toNat)) (den * 2 ^ e.toNat)
  let v : ℚ := if 0 ≤ e then mkRat (m * (2 ^ e.toNat : Int)) 1 else mkRat m (2 ^ (-e).toNat)
  if q.num < 0 then -v else v

/-- SQLite's `avg()` over an integer column: the running sum is kept
exact, and the final result is the IEEE binary64 quotient of sum by
count — one correctly rounded double division, i.e. `fl53` of the exact
mean. -/
def sqliteAvg (s : Int) (n : Nat) : ℚ := fl53 (mkRat s n)

/-- Python's `round(x, 1)` on a float: correctly rounded decimal
rounding of the double's exact binary value to one decimal place, ties
to even; the result is carried as the rounded decimal (the value the
serialized response displays). -/
def pyRound1 (x : ℚ) : ℚ :=
  mkRat (roundHalfEvenInt (x.num * 10) x.den) 10

/-- The response built by `get_stats` (`routers/scores.py`) from the
table contents: count, `max(score) or 0`, `round(avg(score), 1)`,
`sum(duration_seconds) or 0`, `max(snake_length) or 0`; all zeros when
the table is empty. -/
def statsOf (rows : List Score) : StatsResponse :=
  if rows.length = 0 then
    { total_games := 0, best_score := 0, average_score := 0
      total_play_time_seconds := 0, longest_snake := 0 }
  else
    { total_games := rows.length
      best_score := (sqlMax (rows.map (·.score))).getD 0
      average_score := pyRound1 (sqliteAvg (rows.map (·.score)).sum rows.length)
      total_play_time_seconds := (rows.map (·.duration_seconds)).sum
      longest_snake := (sqlMax (rows.map (·.snake_length))).getD 0 }

/-- `GET /api/stats` (`get_stats` in `routers/scores.py`); read-only, so
the state comes back unchanged. -/
def get_stats (db : DB) : StatsResponse × DB :=
  (statsOf db.rows, db)

/-- A validation failure that names `field` among the offending fields
(what the claim "a `ValidationError` identifying the offending field"
asks of a result). -/
def rejectsField (field : String) : Except ApiError ScoreResponse → Bool
  | Except.error (ApiError.validation fs) => fs.contains field
  | _ => false

/-! ## Concrete fixtures used by witnesses and counterexamples -/

/-- The store of §8's tie-break example: scores 50, 80, 80, 30 inserted
in that order. -/
def rowA : Score := ⟨1, "ann", 50, 3, 5, 0⟩

/-- Second insertion of the tie-break example (first of the two 80s). -/
def rowB : Score := ⟨2, "bob", 80, 4, 6, 1⟩

/-- Third insertion of the tie-break example (second of the two 80s). -/
def rowC : Score := ⟨3, "cleo", 80, 5, 7, 2⟩

/-- Fourth insertion of the tie-break example. -/
def rowD : Score := ⟨4, "dan", 30, 6, 8, 3⟩

/-- Store holding the §8 example rows in insertion order. -/
def dbFour : DB := ⟨[rowA, rowB, rowC, rowD], 5, 4⟩

/-- A store with a single record. -/
def dbOne : DB := ⟨[rowA], 2, 1⟩

/-- The empty store. -/
def dbEmpty : DB := ⟨[], 1, 0⟩

/-- A creation request whose `playerName` is the empty string and whose
numeric fields are all valid. -/
def inputEmptyName : ScoreCreateInput := ⟨0, none, none, some ""⟩

/-- A valid creation request relying on all defaults. -/
def goodInput : ScoreCreateInput := ⟨5, none, none, none⟩

/-- A 101-character player name. -/
def longName : String := String.mk (List.replicate 101 'a')

/-- A request violating all four field constraints at once. -/
def badInput : ScoreCreateInput := ⟨-1, some 0, some (-1), some longName⟩

/-! ## Sorting lemmas: the stable descending sort behind the leaderboard -/

/-- Inserting an element preserves the rest of the list as a sublist. -/
lemma sublist_insertDesc (x : Score) : ∀ m : List Score, m.Sublist (insertDesc x m) := by
  intro m
  induction m with
  | nil => simp [insertDesc]
  | cons b l ih =>
      unfold insertDesc
      split
      · exact ih.cons₂ b
      · exact List.sublist_cons_self x (b :: l)

/-- Membership is preserved by insertion. -/
lemma mem_insertDesc {y x : Score} : ∀ {m : List Score}, y ∈ m → y ∈ insertDesc x m := by
  intro m
  induction m with
  | nil => intro h; exact absurd h (List.not_mem_nil y)
  | cons c l ih =>
      intro h
      unfold insertDesc
      split
      · rcases List.mem_cons.mp h with rfl | hyl
        · exact List.mem_cons_self y _
        · exact List.mem_cons_of_mem c (ih hyl)
      · exact List.mem_cons_of_mem x h

/-- The inserted element is a member of the result. -/
lemma self_mem_insertDesc (x : Score) : ∀ m : List Score, x ∈ insertDesc x m := by
  intro m
  induction m with
  | nil => exact List.mem_cons_self x []
  | cons c l ih =>
      unfold insertDesc
      split
      · exact List.mem_cons_of_mem c ih
      · exact List.mem_cons_self x _

/-- Every table row survives into the sorted sequence. -/
lemma mem_topByScore {y : Score} : ∀ {rows : List Score}, y ∈ rows → y ∈ topByScore rows := by
  intro rows
  induction rows with
  | nil => intro h; exact absurd h (List.not_mem_nil y)
  | cons x t ih =>
      intro h
      show y ∈ insertDesc x (topByScore t)
      rcases List.mem_cons.mp h with rfl | hyt
      · exact self_mem_insertDesc y (topByScore t)
      · exact mem_insertDesc (ih hyt)

/-- If `b` does not strictly beat `x`, inserting `x` places it before
`b`. -/
lemma cons_sublist_insertDesc {x b : Score} (hnlt : ¬ x.score < b.score) :
    ∀ m : List Score, b ∈ m → [x, b].Sublist (insertDesc x m) := by
  intro m
  induction m with
  | nil => intro h; exact absurd h (List.not_mem_nil b)
  | cons c l ih =>
      intro h
      unfold insertDesc
      split
      · rename_i hlt
        rcases List.mem_cons.mp h with rfl | hbl
        · exact absurd hlt hnlt
        · exact (ih hbl).cons c
      · exact (List.singleton_sublist.mpr h).cons₂ x

/-- Stability of the sort: two rows with equal scores keep their
relative (insertion) order. -/
lemma topByScore_stable {a b : Score} (hscore : a.score = b.score) :
    ∀ rows : List Score, [a, b].Sublist rows → [a, b].Sublist (topByScore rows) := by
  intro rows
  induction rows with
  | nil => intro hs; simp at hs
  | cons x t ih =>
      intro hs
      show [a, b].Sublist (insertDesc x (topByScore t))
      cases hs with
      | cons _ h' => exact (ih h').trans (sublist_insertDesc x (topByScore t))
      | cons₂ _ h' =>
          have hb : b ∈ topByScore t := mem_topByScore (List.singleton_sublist.mp h')
          exact cons_sublist_insertDesc (by rw [hscore]; exact lt_irrefl _) (topByScore t) hb

/-- C1: records with equal scores appear in the leaderboard query's
output in their insertion order — whenever rows `a` then `b` stand in
that order in the store and tie on score, the `ORDER BY score DESC`
sequence keeps `a` before `b`; the query is a pure function of the
stored data, so every invocation on the same store yields this same
order. -/
theorem topByScore_ties_keep_insertion_order (db : DB) (a b : Score)
    (hab : [a, b].Sublist db.rows) (hscore : a.score = b.score) :
    [a, b].Sublist (topByScore db.rows) :=
  topByScore_stable hscore db.rows hab

/-- Witness for C1: the two 80-point rows of the §8 example tie and come
out in insertion order; moreover `GetLeaderboard(limit=3)` on that store
returns exactly the entries §8 lists. -/
theorem topByScore_ties_keep_insertion_order_witness :
    ([rowB, rowC].Sublist dbFour.rows ∧ rowB.score = rowC.score) ∧
    [rowB, rowC].Sublist (topByScore dbFour.rows) ∧
    (get_leaderboard 3 dbFour).1.entries =
      [⟨1, "bob", 80, 1⟩, ⟨2, "cleo", 80, 2⟩, ⟨3, "ann", 50, 0⟩] :=
  ⟨⟨by decide, by decide⟩,
   topByScore_ties_keep_insertion_order dbFour rowB rowC (by decide) (by decide),
   by decide⟩

/-! ## Ranking and limit lemmas -/

/-- Entry `i` of the ranked list built starting at index `k` carries
rank `k + i + 1`. -/
lemma rankEntries_get : ∀ (l : List Score) (k i : Nat) (h : i < (rankEntries k l).length),
    ((rankEntries k l).get ⟨i, h⟩).rank = k + i + 1 := by
  intro l
  induction l with
  | nil => intro k i h; simp [rankEntries] at h
  | cons s t ih =>
      intro k i h
      cases i with
      | zero => rfl
      | succ i =>
          have h' : i < (rankEntries (k + 1) t).length := by
            simpa [rankEntries] using h
          have hstep : ((rankEntries k (s :: t)).get ⟨i + 1, h⟩).rank =
              ((rankEntries (k + 1) t).get ⟨i, h'⟩).rank := rfl
          rw [hstep, ih (k + 1) i h']
          omega

/-- C5: ranks are purely positional — the entry at (0-based) position
`i` of the leaderboard response carries rank `i + 1`, regardless of the
score values, so equal scores at positions 3 and 4 receive ranks 3 and 4
and rank is never recomputed from the score. -/
theorem leaderboard_rank_positional (db : DB) (limit : Int) (i : Nat)
    (h : i < (get_leaderboard limit db).1.entries.length) :
    ((get_leaderboard limit db).1.entries.get ⟨i, h⟩).rank = i + 1 := by
  have hg := rankEntries_get (sqliteLimit limit (topByScore db.rows)) 0 i h
  simpa using hg

/-- Witness for C5: on the §8 store, the second entry (position 1, an
80-point tie with the first) has rank 2. -/
theorem leaderboard_rank_positional_witness :
    1 < (get_leaderboard 3 dbFour).1.entries.length ∧
    ((get_leaderboard 3 dbFour).1.entries.get ⟨1, by decide⟩).rank = 1 + 1 :=
  ⟨by decide, leaderboard_rank_positional dbFour 3 1 (by decide)⟩

/-- C4: on an empty store `GetStats` returns all-zero statistics — and,
being a total function, it cannot fault (the `total_games == 0` guard
runs before any division). -/
theorem get_stats_empty_store_zeros (next_id now : Nat) :
    (get_stats ⟨[], next_id, now⟩).1 = ⟨0, 0, 0, 0, 0⟩ := rfl

/-- C9: the two read endpoints are idempotent — a second call with the
same arguments and no intervening write (the first call hands back the
store it received) returns the same response. -/
theorem reads_idempotent (db : DB) (limit : Int) :
    (get_leaderboard limit (get_leaderboard limit db).2).1 = (get_leaderboard limit db).1 ∧
    (get_stats (get_stats db).2).1 = (get_stats db).1 :=
  ⟨rfl, rfl⟩

/-- C10: `get_leaderboard` and `get_stats` never modify the store — the
handlers issue only `SELECT` queries, so the state after either call is
exactly the state before, every record and field included. -/
theorem reads_do_not_modify_store (db : DB) (limit : Int) :
    (get_leaderboard limit db).2 = db ∧ (get_stats db).2 = db :=
  ⟨rfl, rfl⟩

/-- Insertion grows the length by one. -/
lemma length_insertDesc (x : Score) : ∀ m : List Score, (insertDesc x m).length = m.length + 1 := by
  intro m
  induction m with
  | nil => rfl
  | cons c l ih =>
      unfold insertDesc
      split
      · simp [ih]
      · rfl

/-- Sorting preserves the number of rows. -/
lemma length_topByScore : ∀ rows : List Score, (topByScore rows).length = rows.length := by
  intro rows
  induction rows with
  | nil => rfl
  | cons x t ih =>
      show (insertDesc x (topByScore t)).length = t.length + 1
      rw [length_insertDesc, ih]

/-- Ranking preserves the number of rows. -/
lemma length_rankEntries : ∀ (k : Nat) (l : List Score), (rankEntries k l).length = l.length := by
  intro k l
  induction l generalizing k with
  | nil => rfl
  | cons s t ih => simp [rankEntries, ih]

/-- Counterexample to C6: the claim says every `limit ≤ 0` yields an
empty leaderboard, but SQLite treats a negative `LIMIT` as "no limit",
so `GetLeaderboard(limit=-1)` on a one-record store returns that
record. -/
theorem leaderboard_negative_limit_counterexample :
    (-1 : Int) ≤ 0 ∧ (get_leaderboard (-1) dbOne).1.entries ≠ [] :=
  ⟨by decide, by decide⟩

/-- C6 amended: `GetLeaderboard(limit=0)` returns `{entries: []}`, and a
negative limit — passed through to SQLite's `LIMIT`, which reads
negative values as unbounded — returns every stored record (still
without erroring; the query is total). -/
theorem leaderboard_limit_amended (db : DB) (limit : Int) :
    (limit = 0 → (get_leaderboard limit db).1.entries = []) ∧
    (limit < 0 → (get_leaderboard limit db).1.entries.length = db.rows.length) := by
  constructor
  · rintro rfl
    rfl
  · intro hneg
    show (rankEntries 0 (sqliteLimit limit (topByScore db.rows))).length = db.rows.length
    rw [length_rankEntries]
    unfold sqliteLimit
    rw [if_pos hneg, length_topByScore]

/-- Witness for C6 amended: on the one-record store, limit `0` yields no
entries while limit `-1` yields as many entries as there are records. -/
theorem leaderboard_limit_amended_witness :
    ((0 : Int) = 0 ∧ (get_leaderboard 0 dbOne).1.entries = []) ∧
    ((-1 : Int) < 0 ∧ (get_leaderboard (-1) dbOne).1.entries.length = dbOne.rows.length) :=
  ⟨⟨rfl, (leaderboard_limit_amended dbOne 0).1 rfl⟩,
   ⟨by decide, (leaderboard_limit_amended dbOne (-1)).2 (by decide)⟩⟩

/-! ## Validation lemmas -/

/-- A negative score is reported among the violations. -/
lemma mem_violations_score {c : ScoreCreate} (h : c.score < 0) :
    "score" ∈ violations c := by
  simp [violations, h]

/-- A snake length below 1 is reported among the violations. -/
lemma mem_violations_snake {c : ScoreCreate} (h : c.snake_length < 1) :
    "snake_length" ∈ violations c := by
  simp [violations, h]

/-- A negative duration is reported among the violations. -/
lemma mem_violations_duration {c : ScoreCreate} (h : c.duration_seconds < 0) :
    "duration_seconds" ∈ violations c := by
  simp [violations, h]

/-- A player name longer than 100 characters is reported among the
violations. -/
lemma mem_violations_player {c : ScoreCreate} (h : 100 < c.player_name.length) :
    "player_name" ∈ violations c := by
  simp [violations, h]

/-- A request with any violation is rejected before the store is
touched: the response is the validation error and the store is returned
unchanged. -/
lemma create_score_eq_of_invalid {input : ScoreCreateInput} {db : DB}
    (h : violations (applyDefaults input) ≠ []) (fault : Option String) :
    create_score fault input db =
      (Except.error (ApiError.validation (violations (applyDefaults input))), db) := by
  unfold create_score
  rw [if_neg h]

/-- A valid request whose commit raises is rolled back: the store is
unchanged and the handler re-raises a 500 carrying `str(e)`. -/
lemma create_score_eq_of_fault {input : ScoreCreateInput} {db : DB}
    (h : violations (applyDefaults input) = []) (msg : String) :
    create_score (some msg) input db =
      (Except.error (ApiError.http 500 ("Не удалось сохранить результат: " ++ msg)), db) := by
  unfold create_score
  rw [if_pos h]

/-- A valid request whose commit succeeds stores exactly one new row and
echoes it back. -/
lemma create_score_eq_of_ok {input : ScoreCreateInput} {db : DB}
    (h : violations (applyDefaults input) = []) :
    create_score none input db =
      (Except.ok (rowResponse (newRow input db)),
       { rows := db.rows ++ [newRow input db], next_id := db.next_id + 1, now := db.now + 1 }) := by
  unfold create_score
  rw [if_pos h]

/-- Any reported violation makes the whole call fail with a
`ValidationError` naming that field, leaving the store unchanged. -/
lemma create_score_rejects_of_mem (fault : Option String) (input : ScoreCreateInput) (db : DB)
    {field : String} (hmem : field ∈ violations (applyDefaults input)) :
    rejectsField field (create_score fault input db).1 = true ∧
    (create_score fault input db).2 = db := by
  rw [create_score_eq_of_invalid (List.ne_nil_of_mem hmem) fault]
  exact ⟨List.elem_iff.mpr hmem, rfl⟩

/-- C2: every `CreateScore` request with a negative score, a snake
length below 1, a negative duration, or a player name longer than 100
characters fails with a `ValidationError` naming the offending field,
and the store is unchanged. -/
theorem create_score_rejects_invalid (fault : Option String) (input : ScoreCreateInput) (db : DB) :
    (input.score < 0 →
      rejectsField "score" (create_score fault input db).1 = true ∧
      (create_score fault input db).2 = db) ∧
    (∀ v, input.snake_length = some v → v < 1 →
      rejectsField "snake_length" (create_score fault input db).1 = true ∧
      (create_score fault input db).2 = db) ∧
    (∀ v, input.duration_seconds = some v → v < 0 →
      rejectsField "duration_seconds" (create_score fault input db).1 = true ∧
      (create_score fault input db).2 = db) ∧
    (∀ s, input.player_name = some s → 100 < s.length →
      rejectsField "player_name" (create_score fault input db).1 = true ∧
      (create_score fault input db).2 = db) := by
  refine ⟨fun h => ?_, fun v hv hlt => ?_, fun v hv hlt => ?_, fun s hs hlen => ?_⟩
  · exact create_score_rejects_of_mem fault input db (mem_violations_score h)
  · refine create_score_rejects_of_mem fault input db (mem_violations_snake ?_)
    show (applyDefaults input).snake_length < 1
    simp [applyDefaults, hv, hlt]
  · refine create_score_rejects_of_mem fault input db (mem_violations_duration ?_)
    show (applyDefaults input).duration_seconds < 0
    simp [applyDefaults, hv, hlt]
  · refine create_score_rejects_of_mem fault input db (mem_violations_player ?_)
    show 100 < (applyDefaults input).player_name.length
    simp [applyDefaults, hs, hlen]

/-- Witness for C2: a request violating all four constraints is
rejected with each field reported, and the empty store stays empty. -/
theorem create_score_rejects_invalid_witness :
    (badInput.score < 0 ∧
      rejectsField "score" (create_score none badInput dbEmpty).1 = true ∧
      (create_score none badInput dbEmpty).2 = dbEmpty) ∧
    (badInput.snake_length = some 0 ∧ (0 : Int) < 1 ∧
      rejectsField "snake_length" (create_score none badInput dbEmpty).1 = true) ∧
    (badInput.duration_seconds = some (-1) ∧ (-1 : Int) < 0 ∧
      rejectsField "duration_seconds" (create_score none badInput dbEmpty).1 = true) ∧
    (badInput.player_name = some longName ∧ 100 < longName.length ∧
      rejectsField "player_name" (create_score none badInput dbEmpty).1 = true) := by
  refine ⟨⟨by decide, ?_⟩, ⟨rfl, by decide, ?_⟩, ⟨rfl, by decide, ?_⟩, ⟨rfl, by decide, ?_⟩⟩
  · exact (create_score_rejects_invalid none badInput dbEmpty).1 (by decide)
  · exact ((create_score_rejects_invalid none badInput dbEmpty).2.1 0 rfl (by decide)).1
  · exact ((create_score_rejects_invalid none badInput dbEmpty).2.2.1 (-1) rfl (by decide)).1
  · exact ((create_score_rejects_invalid none badInput dbEmpty).2.2.2 longName rfl (by decide)).1

/-- C3: for a valid request, a storage fault at commit is rolled back —
the store afterwards is exactly the store before, no partial record —
and surfaces as a 500 whose detail carries the exception's message; on
success the call returns the fully populated record, with the
store-generated `id` (`next_id`) and `createdAt` (`now`), and the store
gains exactly that one row. -/
theorem create_score_fault_rollback_success_populated (input : ScoreCreateInput) (db : DB)
    (h : violations (applyDefaults input) = []) :
    (∀ msg, (create_score (some msg) input db).2 = db ∧
      (create_score (some msg) input db).1 =
        Except.error (ApiError.http 500 ("Не удалось сохранить результат: " ++ msg))) ∧
    ((create_score none input db).1 =
      Except.ok
        { id := db.next_id
          player_name := (applyDefaults input).player_name
          score := (applyDefaults input).score
          snake_length := (applyDefaults input).snake_length
          duration_seconds := (applyDefaults input).duration_seconds
          created_at := db.now } ∧
      (create_score none input db).2.rows = db.rows ++ [newRow input db] ∧
      (create_score none input db).2.next_id = db.next_id + 1) := by
  constructor
  · intro msg
    rw [create_score_eq_of_fault h msg]
    exact ⟨rfl, rfl⟩
  · rw [create_score_eq_of_ok h]
    exact ⟨rfl, rfl, rfl⟩

/-- Witness for C3: the all-defaults request is valid; with a fault the
one-record store is unchanged and the 500 carries the message, without a
fault the response holds the generated id and timestamp. -/
theorem create_score_fault_rollback_witness :
    violations (applyDefaults goodInput) = [] ∧
    ((create_score (some "disk full") goodInput dbOne).2 = dbOne ∧
      (create_score (some "disk full") goodInput dbOne).1 =
        Except.error (ApiError.http 500 ("Не удалось сохранить результат: " ++ "disk full"))) ∧
    ((create_score none goodInput dbOne).1 =
      Except.ok
        { id := dbOne.next_id
          player_name := (applyDefaults goodInput).player_name
          score := (applyDefaults goodInput).score
          snake_length := (applyDefaults goodInput).snake_length
          duration_seconds := (applyDefaults goodInput).duration_seconds
          created_at := dbOne.now } ∧
      (create_score none goodInput dbOne).2.rows = dbOne.rows ++ [newRow goodInput dbOne] ∧
      (create_score none goodInput dbOne).2.next_id = dbOne.next_id + 1) :=
  ⟨by decide,
   (create_score_fault_rollback_success_populated goodInput dbOne (by decide)).1 "disk full",
   (create_score_fault_rollback_success_populated goodInput dbOne (by decide)).2⟩

/-- A valid parse leaves the player name within 100 characters. -/
lemma player_name_le_of_violations_nil {c : ScoreCreate} (h : violations c = []) :
    c.player_name.length ≤ 100 := by
  by_contra hlen
  push_neg at hlen
  exact List.ne_nil_of_mem (mem_violations_player hlen) h

/-- Counterexample to C8: the empty string passes validation (only
`max_length=100` is checked), so a record with an empty `playerName` is
accepted and stored — the non-emptiness the claim asserts is not
enforced anywhere. -/
theorem player_name_empty_stored_counterexample :
    (create_score none inputEmptyName dbEmpty).2.rows.map (fun r => r.player_name) = [""] :=
  by decide

/-- C8 amended: the validation boundary enforces only the upper bound —
every record a `CreateScore` call adds has a `playerName` of at most 100
characters, and an omitted `playerName` is stored as `"Player"` — but
not non-emptiness: the empty string is accepted (see the
counterexample). -/
theorem player_name_invariant_amended (fault : Option String) (input : ScoreCreateInput) (db : DB)
    (hdb : ∀ r ∈ db.rows, r.player_name.length ≤ 100) :
    (∀ r ∈ (create_score fault input db).2.rows, r.player_name.length ≤ 100) ∧
    (input.player_name = none →
      ∀ res, (create_score fault input db).1 = Except.ok res → res.player_name = "Player") := by
  by_cases hv : violations (applyDefaults input) = []
  · cases fault with
    | some msg =>
        rw [create_score_eq_of_fault hv msg]
        exact ⟨hdb, fun _ res hres => absurd hres (by simp)⟩
    | none =>
        rw [create_score_eq_of_ok hv]
        constructor
        · intro r hr
          rcases List.mem_append.mp hr with hold | hnew
          · exact hdb r hold
          · rw [List.mem_singleton.mp hnew]
            show (applyDefaults input).player_name.length ≤ 100
            exact player_name_le_of_violations_nil hv
        · intro hpn res hres
          have hres' : rowResponse (newRow input db) = res := by
            simpa using hres
          rw [← hres']
          show (applyDefaults input).player_name = "Player"
          simp [applyDefaults, hpn]
  · rw [create_score_eq_of_invalid hv fault]
    exact ⟨hdb, fun _ res hres => absurd hres (by simp)⟩

/-- Witness for C8 amended: inserting the all-defaults request into the
empty store keeps every stored name within 100 characters and stores
`"Player"` for the omitted name. -/
theorem player_name_invariant_amended_witness :
    (∀ r ∈ dbEmpty.rows, r.player_name.length ≤ 100) ∧
    ((∀ r ∈ (create_score none goodInput dbEmpty).2.rows, r.player_name.length ≤ 100) ∧
      (goodInput.player_name = none →
        ∀ res, (create_score none goodInput dbEmpty).1 = Except.ok res →
          res.player_name = "Player")) :=
  ⟨fun r hr => absurd hr (List.not_mem_nil r),
   player_name_invariant_amended none goodInput dbEmpty
     (fun r hr => absurd hr (List.not_mem_nil r))⟩

/-! ## Aggregation lemmas -/

